import Mathlib

/-! Shallow embedding of `successstories/models.py`: the `Story` data model,
its `clean` validation, the display helpers, and the two `post_save` signal
handlers (`update_successstories_supernav` and `send_email_to_psf`). -/

/-- Company entity (`companies.models.Company`): only the two fields this
module reads (`name` and `url`). -/
structure Company where
  name : String
  url : String

deriving instance DecidableEq for Company

/-- Story category (`StoryCategory`, a name + slug lookup entity). -/
structure StoryCategory where
  name : String
  slug : String

deriving instance DecidableEq for StoryCategory

/-- The `Story` model: the fields read by `clean`, the display helpers and the
post-save handlers. `weight` is a Django `IntegerField`, hence `Int`; the
optional `company` foreign key is an `Option`. -/
structure Story where
  name : String
  slug : String
  company_name : String
  company_url : String
  company : Option Company
  category : StoryCategory
  author : String
  author_email : String
  pull_quote : String
  content : String
  is_published : Bool
  featured : Bool
  weight : Int

deriving instance DecidableEq for Story

/-- Modelled from the spec: the URL configuration is not under `src`; the spec
says the story detail page lives at a slug-parameterized path
(`reverse('success_story_detail', kwargs=slug)`). -/
def success_story_detail_url (slug : String) : String :=
  "/success-stories/" ++ slug ++ "/"

/-- `Story.get_absolute_url`: reverse of `success_story_detail` on the slug. -/
def Story.get_absolute_url (s : Story) : String :=
  success_story_detail_url s.slug

/-- `Story.get_weight_display`: the Python code is
`"{} %".format(self.weight)` — the decimal weight, a space, then a percent
sign. -/
def Story.get_weight_display (s : Story) : String :=
  toString s.weight ++ " %"

/-- `Story.get_company_name`: the linked company's name when the `company`
foreign key is set (truthy), else the inline `company_name` field. -/
def Story.get_company_name (s : Story) : String :=
  match s.company with
  | some c => c.name
  | none => s.company_name

/-- `Story.get_company_url`: the linked company's url when the `company`
foreign key is set, else the inline `company_url` field. -/
def Story.get_company_url (s : Story) : String :=
  match s.company with
  | some c => c.url
  | none => s.company_url

/-- `Story.clean`: raises on a featured story with weight 0, then on a weight
above 100; otherwise passes. The raised message is the `Except.error` value. -/
def Story.clean (s : Story) : Except String Unit :=
  if s.featured && s.weight == 0 then
    Except.error "Cannot be a featured story with weight==0"
  else if s.weight > 100 then
    Except.error "weight cannot exceed 100"
  else
    Except.ok ()

/-- Modelled from the spec: the template `successstories/supernav.html` is not
under `src`; the spec only says a fixed display template is rendered with the
record to an HTML fragment, so any concrete function of the story stands in
for `render_to_string`. -/
def render_supernav (s : Story) : String :=
  "<div>" ++ s.name ++ "</div>"

/-- Observable cache-side actions performed by the supernav handler: the
get-or-create-then-overwrite of a labelled box, and a Fastly cache purge of a
path. -/
inductive CacheAction where
  | box_upsert (label : String) (content : String)
  | purge (path : String)

deriving instance DecidableEq for CacheAction

/-- The `update_successstories_supernav` post_save handler, as the ordered
list of cache actions it performs. `raw` is the fixture/bulk-load flag from
`kwargs`; `created` is passed by the signal but never read by the handler. -/
def update_successstories_supernav (inst : Story) (created raw : Bool) :
    List CacheAction :=
  if raw then []
  else
    (if inst.is_published && inst.featured then
       [CacheAction.box_upsert "supernav-python-success-stories"
          (render_supernav inst),
        CacheAction.purge "/box/supernav-python-success-stories/"]
     else []) ++
    (if inst.is_published then
       [CacheAction.purge (Story.get_absolute_url inst)]
     else [])

/-- `PSF_TO_EMAILS`: the fixed recipient list at module top. -/
def PSF_TO_EMAILS : List String :=
  ["ewa@python.org", "berker.peksag@gmail.com"]

/-- Modelled from the spec: `settings.DEFAULT_FROM_EMAIL` is project
configuration not under `src`; the spec calls it a configured default
sender. -/
def DEFAULT_FROM_EMAIL : String :=
  "default-sender@python.org"

/-- An outgoing `EmailMessage` as constructed by `send_email_to_psf`:
subject, body, from address, recipient list, the `Reply-To` header, and the
content subtype set after construction. -/
structure EmailMessage where
  subject : String
  body : String
  from_email : String
  to_emails : List String
  reply_to : String
  content_subtype : String

deriving instance DecidableEq for EmailMessage

/-- The email body: the triple-quoted Python template (which starts directly
at `Name:` thanks to the leading backslash and ends with a newline and the
eight spaces of closing-quote indentation), with the record's inline fields
interpolated. Note the code formats `company_name`/`company_url` from the
inline fields, not from `get_company_name`/`get_company_url`. -/
def story_email_body (s : Story) : String :=
  "Name: " ++ s.name ++ "\nCompany name: " ++ s.company_name ++
  "\nCompany URL: " ++ s.company_url ++ "\nCategory: " ++ s.category.name ++
  "\nAuthor: " ++ s.author ++ "\nAuthor email: " ++ s.author_email ++
  "\nPull quote:\n\n" ++ s.pull_quote ++ "\n\nContent:\n\n" ++ s.content ++
  "\n        "

/-- The `EmailMessage` built by `send_email_to_psf` for a story. -/
def mkStoryEmail (inst : Story) : EmailMessage :=
  { subject := "New success story submission: " ++ inst.name
    body := story_email_body inst
    from_email := DEFAULT_FROM_EMAIL
    to_emails := PSF_TO_EMAILS
    reply_to := inst.author_email
    content_subtype := "html" }

/-- The `send_email_to_psf` post_save handler, as the list of emails it
sends: nothing on a raw (fixture) save, one email when the record is
unpublished, nothing when it is published. `created` is passed by the signal
but never read. -/
def send_email_to_psf (inst : Story) (created raw : Bool) :
    List EmailMessage :=
  if raw then []
  else if !inst.is_published then [mkStoryEmail inst]
  else []

/-- The `send_email_to_psf` handler run against a fallible email transport:
the code calls `email.send()` with no try/except, so whenever an email is
sent the transport's result is the handler's result. -/
def send_email_to_psf_run (inst : Story) (created raw : Bool)
    (transport : EmailMessage → Except String Unit) : Except String Unit :=
  if raw then Except.ok ()
  else if !inst.is_published then transport (mkStoryEmail inst)
  else Except.ok ()

/-- A save of a `Story` with the post_save dispatch: persistence succeeds
first (the record joins the store), then the signal handlers run; any
transport error from `send_email_to_psf` is what the caller of `save`
sees. -/
def Story.save_with_transport (store : List Story) (inst : Story)
    (created raw : Bool) (transport : EmailMessage → Except String Unit) :
    List Story × Except String Unit :=
  let store' := inst :: store
  (store', send_email_to_psf_run inst created raw transport)

/-- A baseline concrete story used by the concrete witnesses. -/
def baseStory : Story :=
  { name := "Acme"
    slug := "acme"
    company_name := "Acme Inc"
    company_url := "https://acme.example"
    company := none
    category := { name := "Education", slug := "education" }
    author := "Jane"
    author_email := "jane@example.org"
    pull_quote := "Great"
    content := "Body"
    is_published := false
    featured := false
    weight := 0 }

/-- A featured story with weight 0, used as the C1 counterexample. -/
def c1_story : Story :=
  { baseStory with featured := true }

/-- A story with weight 101, above the bound. -/
def c2_story_hi : Story :=
  { baseStory with weight := 101, featured := true }

/-- A story with weight exactly 100. -/
def c2_story_eq : Story :=
  { baseStory with weight := 100, featured := true }

/-- A published, non-featured story. -/
def pub_story : Story :=
  { baseStory with is_published := true }

/-- A published, featured story with nonzero weight. -/
def pub_featured_story : Story :=
  { baseStory with is_published := true, featured := true, weight := 50 }

/-- A story with the linked company foreign key set. -/
def linked_story : Story :=
  { baseStory with company := some { name := "PyCo", url := "https://pyco.example" } }

/-- A story with weight 11, used for the weight display counterexample. -/
def c7_story : Story :=
  { baseStory with weight := 11 }

/-- A featured story with the negative weight -1. -/
def c10_story : Story :=
  { baseStory with featured := true, weight := -1 }

/-- C1 counterexample: a featured story with weight 0 does fail validation,
but with the message "Cannot be a featured story with weight==0", not the
message "featured story cannot have zero weight" that the claim states. -/
theorem clean_c1_counterexample :
    c1_story.featured = true ∧ c1_story.weight = 0 ∧
    Story.clean c1_story =
      Except.error "Cannot be a featured story with weight==0" ∧
    Story.clean c1_story ≠
      Except.error "featured story cannot have zero weight" := by
  refine ⟨rfl, rfl, rfl, fun h => ?_⟩
  have h3 : Story.clean c1_story =
      Except.error "Cannot be a featured story with weight==0" := rfl
  rw [h3] at h
  exact absurd (Except.error.inj h) (by decide)

/-- C1 (amended): for every story, validation fails with the message
"Cannot be a featured story with weight==0" whenever featured is true and
weight is 0, and passes when weight is 0 and featured is false. -/
theorem clean_c1_amended (s : Story) :
    (s.featured = true → s.weight = 0 →
      Story.clean s = Except.error "Cannot be a featured story with weight==0") ∧
    (s.weight = 0 → s.featured = false → Story.clean s = Except.ok ()) := by
  constructor
  · intro hf hw
    simp [Story.clean, hf, hw]
  · intro hw hf
    simp [Story.clean, hf, hw]

/-- Witness for C1 (amended) at the concrete stories. -/
theorem clean_c1_amended_witness :
    Story.clean c1_story =
      Except.error "Cannot be a featured story with weight==0" ∧
    Story.clean baseStory = Except.ok () :=
  ⟨(clean_c1_amended c1_story).1 rfl rfl, (clean_c1_amended baseStory).2 rfl rfl⟩

/-- C2: for every story, validation fails with "weight cannot exceed 100"
whenever weight is strictly greater than 100 (whatever featured is, since a
weight above 100 cannot be 0), and a weight of exactly 100 passes. -/
theorem clean_c2 (s : Story) :
    (100 < s.weight → Story.clean s = Except.error "weight cannot exceed 100") ∧
    (s.weight = 100 → Story.clean s = Except.ok ()) := by
  constructor
  · intro h
    have hne : (s.weight == 0) = false := by
      simp only [beq_eq_false_iff_ne, ne_eq]
      omega
    simp [Story.clean, hne, h]
  · intro h
    simp [Story.clean, h]

/-- Witness for C2 at weight 101 (featured) and weight 100. -/
theorem clean_c2_witness :
    Story.clean c2_story_hi = Except.error "weight cannot exceed 100" ∧
    Story.clean c2_story_eq = Except.ok () :=
  ⟨(clean_c2 c2_story_hi).1 (by decide), (clean_c2 c2_story_eq).2 rfl⟩

/-- C3: on every non-raw save of an unpublished story (created or not),
exactly one email is sent, with subject "New success story submission: " plus
the record's name, the two fixed maintainer recipients, and Reply-To equal to
the record's author_email; a published story sends no email. -/
theorem send_email_c3 (s : Story) (created : Bool) :
    (s.is_published = false →
      send_email_to_psf s created false = [mkStoryEmail s] ∧
      (mkStoryEmail s).subject = "New success story submission: " ++ s.name ∧
      (mkStoryEmail s).to_emails = ["ewa@python.org", "berker.peksag@gmail.com"] ∧
      (mkStoryEmail s).reply_to = s.author_email) ∧
    (s.is_published = true → send_email_to_psf s created false = []) := by
  constructor
  · intro h
    exact ⟨by simp [send_email_to_psf, h], rfl, rfl, rfl⟩
  · intro h
    simp [send_email_to_psf, h]

/-- Witness for C3: one email for an unpublished save (both on creation and
on edit), none for a published save. -/
theorem send_email_c3_witness :
    send_email_to_psf baseStory true false = [mkStoryEmail baseStory] ∧
    send_email_to_psf pub_story false false = [] :=
  ⟨((send_email_c3 baseStory true).1 rfl).1, (send_email_c3 pub_story false).2 rfl⟩

/-- C4: on every non-raw save, a published and featured story yields the box
upsert of label "supernav-python-success-stories" with the rendered content
followed by exactly two purges (box path, then the story's own detail URL); a
published non-featured story yields exactly one purge (detail URL) and no box
update; an unpublished story yields no cache action. -/
theorem supernav_c4 (s : Story) (created : Bool) :
    (s.is_published = true → s.featured = true →
      update_successstories_supernav s created false =
        [CacheAction.box_upsert "supernav-python-success-stories"
           (render_supernav s),
         CacheAction.purge "/box/supernav-python-success-stories/",
         CacheAction.purge (Story.get_absolute_url s)]) ∧
    (s.is_published = true → s.featured = false →
      update_successstories_supernav s created false =
        [CacheAction.purge (Story.get_absolute_url s)]) ∧
    (s.is_published = false →
      update_successstories_supernav s created false = []) := by
  refine ⟨fun hp hf => ?_, fun hp hf => ?_, fun hp => ?_⟩
  · simp [update_successstories_supernav, hp, hf]
  · simp [update_successstories_supernav, hp, hf]
  · simp [update_successstories_supernav, hp]

/-- Witness for C4 at a published+featured, a published-only, and an
unpublished story. -/
theorem supernav_c4_witness :
    update_successstories_supernav pub_featured_story true false =
      [CacheAction.box_upsert "supernav-python-success-stories"
         (render_supernav pub_featured_story),
       CacheAction.purge "/box/supernav-python-success-stories/",
       CacheAction.purge (Story.get_absolute_url pub_featured_story)] ∧
    update_successstories_supernav pub_story false false =
      [CacheAction.purge (Story.get_absolute_url pub_story)] ∧
    update_successstories_supernav baseStory true false = [] :=
  ⟨(supernav_c4 pub_featured_story true).1 rfl rfl,
   (supernav_c4 pub_story false).2.1 rfl rfl,
   (supernav_c4 baseStory true).2.2 rfl⟩

/-- C5: a raw (fixture/bulk-load) save runs neither side effect: no cache
action and no email, for every story and both values of created. -/
theorem raw_skip_c5 (s : Story) (created : Bool) :
    update_successstories_supernav s created true = [] ∧
    send_email_to_psf s created true = [] :=
  ⟨rfl, rfl⟩

/-- C6: get_company_name returns the linked company's name when the company
reference is set and the inline company_name otherwise; get_company_url does
the same with url and company_url. -/
theorem company_c6 (s : Story) :
    (∀ c : Company, s.company = some c →
      Story.get_company_name s = c.name ∧ Story.get_company_url s = c.url) ∧
    (s.company = none →
      Story.get_company_name s = s.company_name ∧
      Story.get_company_url s = s.company_url) := by
  constructor
  · intro c hc
    simp [Story.get_company_name, Story.get_company_url, hc]
  · intro hc
    simp [Story.get_company_name, Story.get_company_url, hc]

/-- Witness for C6 at a story with a linked company and one without. -/
theorem company_c6_witness :
    (Story.get_company_name linked_story = "PyCo" ∧
     Story.get_company_url linked_story = "https://pyco.example") ∧
    (Story.get_company_name baseStory = baseStory.company_name ∧
     Story.get_company_url baseStory = baseStory.company_url) :=
  ⟨(company_c6 linked_story).1 { name := "PyCo", url := "https://pyco.example" } rfl,
   (company_c6 baseStory).2 rfl⟩

/-- C7 counterexample: at weight 11, get_weight_display returns "11 %" — the
decimal weight, then a space, then the percent sign — not the weight
immediately followed by a percent sign as the claim states. -/
theorem weight_display_c7_counterexample :
    Story.get_weight_display c7_story = "11 %" ∧
    Story.get_weight_display c7_story ≠ toString c7_story.weight ++ "%" := by
  refine ⟨rfl, fun h => ?_⟩
  have h2 : Story.get_weight_display c7_story = "11 %" := rfl
  have h3 : toString c7_story.weight ++ "%" = "11%" := rfl
  rw [h2, h3] at h
  exact absurd h (by decide)

/-- C7 (amended): get_weight_display returns the weight's decimal
representation followed by a space and then a percent sign. -/
theorem weight_display_c7_amended (s : Story) :
    Story.get_weight_display s = toString s.weight ++ " %" := rfl

/-- C8: when the email transport fails during the post-save notification of
an unpublished story, the error is not caught: it propagates as the result of
the save, while the record itself is already persisted in the store. -/
theorem transport_error_c8 (store : List Story) (s : Story) (created : Bool)
    (transport : EmailMessage → Except String Unit) (t : String)
    (hpub : s.is_published = false)
    (hsend : transport (mkStoryEmail s) = Except.error t) :
    (Story.save_with_transport store s created false transport).2 =
      Except.error t ∧
    s ∈ (Story.save_with_transport store s created false transport).1 := by
  constructor
  · simp [Story.save_with_transport, send_email_to_psf_run, hpub, hsend]
  · simp [Story.save_with_transport]

/-- Witness for C8 with a transport that always fails. -/
theorem transport_error_c8_witness :
    (Story.save_with_transport [] baseStory true false
        (fun _ => Except.error "smtp down")).2 = Except.error "smtp down" ∧
    baseStory ∈ (Story.save_with_transport [] baseStory true false
        (fun _ => Except.error "smtp down")).1 :=
  transport_error_c8 [] baseStory true (fun _ => Except.error "smtp down")
    "smtp down" rfl rfl

/-- C9: the notification email is built from the inline company_name and
company_url fields only — the whole email is invariant under any change of
the linked company reference, and its body is exactly the template with the
inline fields interpolated, never get_company_name / get_company_url. -/
theorem email_inline_company_c9 (s : Story) (c : Option Company) :
    mkStoryEmail { s with company := c } = mkStoryEmail s ∧
    (mkStoryEmail s).body =
      "Name: " ++ s.name ++ "\nCompany name: " ++ s.company_name ++
      "\nCompany URL: " ++ s.company_url ++ "\nCategory: " ++ s.category.name ++
      "\nAuthor: " ++ s.author ++ "\nAuthor email: " ++ s.author_email ++
      "\nPull quote:\n\n" ++ s.pull_quote ++ "\n\nContent:\n\n" ++ s.content ++
      "\n        " :=
  ⟨rfl, rfl⟩

/-- C10: validation imposes no lower bound on weight: every story with a
strictly negative weight passes clean, featured or not. -/
theorem clean_negative_c10 (s : Story) (h : s.weight < 0) :
    Story.clean s = Except.ok () := by
  have h0 : (s.weight == 0) = false := by
    simp only [beq_eq_false_iff_ne, ne_eq]
    omega
  have h100 : ¬ (s.weight > 100) := by omega
  simp [Story.clean, h0, h100]

/-- Witness for C10 at a featured story with weight -1. -/
theorem clean_negative_c10_witness :
    c10_story.featured = true ∧ Story.clean c10_story = Except.ok () :=
  ⟨rfl, clean_negative_c10 c10_story (by decide)⟩
